import Mathlib

/-!
# Verification of the real-time event relay (socket handler and durable models)

Shallow embedding of the repository's real-time relay:
* the socket event handlers (`join-conversation`, `send-message`,
  `typing-start`/`typing-stop`, `message-reaction`, `initiate-call`,
  `reject-call`/`end-call`, and the `disconnect` cleanup),
* the durable `Message.addReaction` method, and
* the durable `VideoCall` record operations (`answer`, `end`, `reject`,
  `markAsMissed`).

JavaScript `Map`s are modelled as association lists (`Map.set` conses to the
front, lookup takes the first hit, which matches overwrite semantics), socket
identifiers and user identifiers are `String`s, timestamps are `Nat`
milliseconds, and emitted socket events are collected into explicit lists.
Fallible external operations (Mongoose `create`/`save`) are driven by explicit
success flags so that every interleaving of failures is covered.
-/

namespace Relay

/-! ## Presence registry (`onlineUsers : Map userId → socket.id`) -/

/-- Model of `onlineUsers.get(uid)` — first binding wins, matching `Map` overwrite
semantics when new bindings are consed to the front. -/
def lookupSocket (online : List (String × String)) (uid : String) : Option String :=
  (online.find? (fun p => p.1 = uid)).map (fun p => p.2)

/-- Model of `onlineUsers.delete(uid)`. -/
def deleteOnline (online : List (String × String)) (uid : String) :
    List (String × String) :=
  online.filter (fun p => p.1 ≠ uid)

/-! ## `join-conversation` handler

```js
socket.on('join-conversation', (conversationId) => {
  socket.join(`conversation:${conversationId}`);
});
```

The handler body is a single unconditional `socket.join`; it consults no
conversation document and performs no participant check.  We model the
socket's room set as the list of room names the socket has joined. -/

/-- The `join-conversation` handler: unconditionally joins the room
`conversation:<id>`. -/
def joinConversation (socketRooms : List String) (conversationId : String) :
    List String :=
  ("conversation:" ++ conversationId) :: socketRooms

/-- The `join-stream` room join (`socket.join('stream:'+streamId)`), likewise
unconditional. -/
def joinStream (socketRooms : List String) (streamId : String) : List String :=
  ("stream:" ++ streamId) :: socketRooms

/-! ## Typing timers

```js
const typingUsers = new Map();        // `${conversationId}:${userId}` → timeout
```
-/

/-- The registry key `` `${conversationId}:${userId}` ``. -/
def typingKey (conversationId userId : String) : String :=
  conversationId ++ ":" ++ userId

/-- An entry of the Typing Timer Registry.  `live` records whether the
underlying `setTimeout` handle is still armed (`clearTimeout` clears it
without removing the map entry). -/
structure TimerEntry where
  key : String
  live : Bool
  deriving DecidableEq, Repr

/-- Events a typing handler can emit. -/
inductive TypingEvent
  /-- Event `socket.to(room).emit('typing-start', {userId, username})` — a room
  broadcast that excludes the sending socket. -/
  | start (room userId username : String)
  /-- Event `socket.to(room).emit('typing-stop', {userId})` — a room broadcast that
  excludes the sending socket. -/
  | stop (room userId : String)
  deriving DecidableEq, Repr

/-- The `typing-start` handler:

```js
const key = `${conversationId}:${socket.userId}`;
if (!typingUsers.has(key)) {
  const timeout = setTimeout(() => typingUsers.delete(key), 3000);
  typingUsers.set(key, timeout);
  socket.to(`conversation:${conversationId}`).emit('typing-start', {...});
}
```
-/
def typingStartHandler (reg : List TimerEntry) (conversationId userId username : String) :
    List TimerEntry × List TypingEvent :=
  let key := typingKey conversationId userId
  if reg.any (fun e => e.key = key) then (reg, [])
  else (⟨key, true⟩ :: reg,
        [TypingEvent.start ("conversation:" ++ conversationId) userId username])

/-- The callback armed by `typing-start`'s `setTimeout`, run when the 3000 ms
debounce fires: `() => typingUsers.delete(key)`.  It only deletes the map
entry; it emits nothing. -/
def typingTimerFire (reg : List TimerEntry) (key : String) :
    List TimerEntry × List TypingEvent :=
  (reg.filter (fun e => e.key ≠ key), [])

/-- The `typing-stop` handler:

```js
const key = `${conversationId}:${socket.userId}`;
const timeout = typingUsers.get(key);
if (timeout) clearTimeout(timeout);
typingUsers.delete(key);
socket.to(`conversation:${conversationId}`).emit('typing-stop', { userId });
```
-/
def typingStopHandler (reg : List TimerEntry) (conversationId userId : String) :
    List TimerEntry × List TypingEvent :=
  let key := typingKey conversationId userId
  (reg.filter (fun e => e.key ≠ key),
   [TypingEvent.stop ("conversation:" ++ conversationId) userId])

/-- Model of JavaScript `String.prototype.endsWith` over the underlying
character sequences (`String.endsWith` from core does not reduce in the
kernel, so the suffix test is expressed on `String.data`). -/
def strEndsWith (s suffix : String) : Bool :=
  suffix.data.isSuffixOf s.data

/-- In JavaScript, `clearTimeout(t)` returns `undefined`, and `undefined` is
falsy; this constant records the truthiness of that return value, used by the
`&&` chain in the disconnect handler. -/
def clearTimeoutReturnIsTruthy : Bool := false

/-- The typing cleanup in the `disconnect` handler:

```js
typingUsers.forEach((t, k) =>
  k.endsWith(`:${socket.userId}`) && clearTimeout(t) && typingUsers.delete(k));
```

For a matching key the `&&` chain first evaluates `clearTimeout(t)` (the
timer is cancelled, so `live` becomes `false`); `typingUsers.delete(k)` is
evaluated only if that return value is truthy. -/
def disconnectTypingCleanup (reg : List TimerEntry) (userId : String) :
    List TimerEntry :=
  reg.foldr
    (fun e acc =>
      if strEndsWith e.key (":" ++ userId) then
        let cancelled : TimerEntry := ⟨e.key, false⟩
        if clearTimeoutReturnIsTruthy then acc else cancelled :: acc
      else e :: acc)
    []

/-! ## `send-message` handler

```js
socket.on('send-message', async ({ conversationId, content, replyTo, media }) => {
  try {
    const conversation = await Conversation.findById(conversationId);
    if (!conversation?.participants.includes(socket.userId)) return;
    const message = await Message.create({ ... });
    await message.populate('sender', ...);
    conversation.lastMessage = message._id;
    conversation.lastMessageAt = new Date();
    await conversation.save();
    io.to(`conversation:${conversationId}`).emit('new-message', message);
    conversation.participants.forEach(async (p) => {
      if (p.toString() !== socket.userId && !onlineUsers.has(p.toString())) {
        await Notification.createNotification({ ... });
      }
    });
  } catch (err) {
    socket.emit('message-error', { error: 'Failed to send' });
  }
});
```

All four awaited steps inside the `try` are fallible and share the same
`catch`: `Conversation.findById` (`findOk`), `Message.create` (`createOk`),
`populate` (`populateOk`) and `conversation.save` (`saveOk`) are each driven
by a success flag; a `false` flag means the promise rejects and control jumps
to the `catch`, which emits `message-error` on the sending socket.  When the
lookup resolves, `conv` is the resolved value — `none` when no such
conversation document exists (the `conversation?.` optional chain then takes
the silent `return`).  `Notification.createNotification` runs inside a
non-awaited `forEach` callback, so its failures never reach the `catch`; it
is recorded as a fire-and-forget effect. -/

/-- The conversation document fields `send-message` touches. -/
structure ConversationDoc where
  participants : List String
  deriving DecidableEq, Repr

/-- Effects of the `send-message` handler, in program order. -/
inductive SMEvent
  /-- Effect of `Message.create({conversation, sender, content, ...})` succeeding: the
  message is now durably persisted. -/
  | persistMessage (conversationId sender : String) (content : Option String)
  /-- Effect of `conversation.save()` after updating `lastMessage`/`lastMessageAt`. -/
  | conversationSaved (conversationId : String)
  /-- Event `io.to('conversation:'+id).emit('new-message', message)` — the broadcast
  to the conversation room. -/
  | newMessage (room : String)
  /-- Effect of `Notification.createNotification({recipient, ...})` for an offline
  participant. -/
  | notify (recipient : String)
  /-- Event `socket.emit('message-error', {error: 'Failed to send'})` — sent on the
  sending socket only. -/
  | messageError
  deriving DecidableEq, Repr

/-- The `send-message` handler.  `findOk` tells whether the awaited
`Conversation.findById(conversationId)` resolves (a rejection jumps to the
`catch`); when it resolves, `conv` is its value; `createOk`, `populateOk`,
`saveOk` tell whether the remaining awaited durable operations succeed. -/
def sendMessageHandler (conv : Option ConversationDoc)
    (online : List (String × String)) (userId conversationId : String)
    (content : Option String) (findOk createOk populateOk saveOk : Bool) :
    List SMEvent :=
  if !findOk then [SMEvent.messageError]
  else
  match conv with
  | none => []
  | some c =>
    if userId ∈ c.participants then
      if createOk then
        if populateOk then
          if saveOk then
            SMEvent.persistMessage conversationId userId content ::
            SMEvent.conversationSaved conversationId ::
            SMEvent.newMessage ("conversation:" ++ conversationId) ::
            (c.participants.filter
              (fun p => p ≠ userId ∧ lookupSocket online p = none)).map SMEvent.notify
          else [SMEvent.persistMessage conversationId userId content,
                SMEvent.messageError]
        else [SMEvent.persistMessage conversationId userId content,
              SMEvent.messageError]
      else [SMEvent.messageError]
    else []

/-! ## Call signaling (`activeCalls : Map callId → {caller, recipient, callType}`) -/

/-- A Call Session Table entry: `{ caller, recipient, callType }`. -/
structure CallData where
  caller : String
  recipient : String
  callType : String
  deriving DecidableEq, Repr

/-- Model of `activeCalls.get(callId)`. -/
def lookupCall (calls : List (String × CallData)) (callId : String) :
    Option CallData :=
  (calls.find? (fun p => p.1 = callId)).map (fun p => p.2)

/-- Model of `activeCalls.delete(callId)`. -/
def deleteCall (calls : List (String × CallData)) (callId : String) :
    List (String × CallData) :=
  calls.filter (fun p => p.1 ≠ callId)

/-- Events the call-signaling handlers can emit, each to a single socket. -/
inductive CallEvent
  /-- Event `socket.emit('call-rejected', { reason: 'User offline' })` back to the
  initiating socket. -/
  | rejectedOffline (toSocket reason : String)
  /-- Event `io.to(toSocket).emit('incoming-call', {callId, from, fromUser, offer, callType})`. -/
  | incomingCall (toSocket callId fromId offer callType : String)
  /-- Event `io.to(otherSocket).emit('call-rejected', { callId })`. -/
  | callRejected (toSocket callId : String)
  /-- Event `io.to(otherSocket).emit('call-ended', { callId })`, with an optional
  `reason` field (`'disconnect'` in the disconnect reconciler). -/
  | callEnded (toSocket callId : String) (reason : Option String)
  deriving DecidableEq, Repr

/-- The `initiate-call` handler:

```js
const toSocket = onlineUsers.get(to);
if (!toSocket) return socket.emit('call-rejected', { reason: 'User offline' });
const callId = `${socket.userId}-${to}-${Date.now()}`;
activeCalls.set(callId, { caller: socket.userId, recipient: to, callType });
io.to(toSocket).emit('incoming-call', { callId, from, fromUser, offer, callType });
```

`socketId` is the initiator's own socket (`socket.emit` targets it); `now` is
`Date.now()`. -/
def initiateCall (online : List (String × String))
    (calls : List (String × CallData)) (userId socketId toId offer callType : String)
    (now : Nat) : List (String × CallData) × List CallEvent :=
  match lookupSocket online toId with
  | none => (calls, [CallEvent.rejectedOffline socketId "User offline"])
  | some toSocket =>
    let callId := userId ++ "-" ++ toId ++ "-" ++ toString now
    ((callId, ⟨userId, toId, callType⟩) :: calls,
     [CallEvent.incomingCall toSocket callId userId offer callType])

/-- The `reject-call` handler:

```js
const call = activeCalls.get(callId);
if (!call) return;
const otherSocket = onlineUsers.get(call.caller === socket.userId ? call.recipient : call.caller);
if (otherSocket) io.to(otherSocket).emit('call-rejected', { callId });
activeCalls.delete(callId);
```

Note that `socket.userId` is only used to pick which side to notify; the
handler never checks that it equals `call.caller` or `call.recipient`. -/
def rejectCallHandler (online : List (String × String))
    (calls : List (String × CallData)) (userId callId : String) :
    List (String × CallData) × List CallEvent :=
  match lookupCall calls callId with
  | none => (calls, [])
  | some call =>
    let otherId := if call.caller = userId then call.recipient else call.caller
    let evs := match lookupSocket online otherId with
      | some s => [CallEvent.callRejected s callId]
      | none => []
    (deleteCall calls callId, evs)

/-- The `end-call` handler, identical in structure to `reject-call` but
emitting `call-ended`:

```js
const call = activeCalls.get(callId);
if (!call) return;
const otherId = call.caller === socket.userId ? call.recipient : call.caller;
const otherSocket = onlineUsers.get(otherId);
if (otherSocket) io.to(otherSocket).emit('call-ended', { callId });
activeCalls.delete(callId);
```
-/
def endCallHandler (online : List (String × String))
    (calls : List (String × CallData)) (userId callId : String) :
    List (String × CallData) × List CallEvent :=
  match lookupCall calls callId with
  | none => (calls, [])
  | some call =>
    let otherId := if call.caller = userId then call.recipient else call.caller
    let evs := match lookupSocket online otherId with
      | some s => [CallEvent.callEnded s callId none]
      | none => []
    (deleteCall calls callId, evs)

/-- The party notified by `reject-call`/`end-call` and the disconnect cleanup,
as the source computes it:
`call.caller === socket.userId ? call.recipient : call.caller`. -/
def otherParty (call : CallData) (userId : String) : String :=
  if call.caller = userId then call.recipient else call.caller

/-- The `call-ended(reason: 'disconnect')` notice owed for one Call Session
during disconnect cleanup: one event to the other party's socket when that
party is present, nothing when it is absent.  This is the body

```js
const other = call.caller === socket.userId ? call.recipient : call.caller;
const otherSocket = onlineUsers.get(other);
if (otherSocket) io.to(otherSocket).emit('call-ended', { callId, reason: 'disconnect' });
```
-/
def disconnectNotice (online : List (String × String)) (userId callId : String)
    (call : CallData) : List CallEvent :=
  match lookupSocket online (otherParty call userId) with
  | some s => [CallEvent.callEnded s callId (some "disconnect")]
  | none => []

/-- Whether an event is a `call-ended` carrying `reason: 'disconnect'` for the
given call id. -/
def CallEvent.isDisconnectEndedFor (e : CallEvent) (callId : String) : Bool :=
  match e with
  | CallEvent.callEnded _ cid r => cid = callId && r == some "disconnect"
  | _ => false

/-- The debounce interval of the typing timer: the `3000` (milliseconds) in
`setTimeout(() => typingUsers.delete(key), 3000)`. -/
def typingDebounceMs : Nat := 3000

/-- Does a Call Session reference `userId` as caller or recipient? -/
def CallData.references (c : CallData) (userId : String) : Bool :=
  c.caller = userId || c.recipient = userId

/-- The call cleanup in the `disconnect` handler (run after
`onlineUsers.delete(socket.userId)`):

```js
activeCalls.forEach((call, callId) => {
  if (call.caller === socket.userId || call.recipient === socket.userId) {
    const other = call.caller === socket.userId ? call.recipient : call.caller;
    const otherSocket = onlineUsers.get(other);
    if (otherSocket) io.to(otherSocket).emit('call-ended', { callId, reason: 'disconnect' });
    activeCalls.delete(callId);
  }
});
```
-/
def disconnectCallCleanup (online : List (String × String))
    (calls : List (String × CallData)) (userId : String) :
    List (String × CallData) × List CallEvent :=
  calls.foldr
    (fun (entry : String × CallData) acc =>
      if entry.2.references userId then
        (acc.1, disconnectNotice online userId entry.1 entry.2 ++ acc.2)
      else (entry :: acc.1, acc.2))
    ([], [])

/-! ## `disconnect` handler (the cleanup reconciler)

```js
socket.on('disconnect', async () => {
  onlineUsers.delete(socket.userId);
  typingUsers.forEach((t, k) => k.endsWith(`:${socket.userId}`) && clearTimeout(t) && typingUsers.delete(k));
  activeCalls.forEach((call, callId) => { ... });   // see disconnectCallCleanup
  await User.findByIdAndUpdate(...);                // durable offline status
  ...                                               // friend-offline broadcasts
});
```
-/

/-- The process-wide shared state the disconnect handler mutates. -/
structure RelayState where
  onlineUsers : List (String × String)
  typingUsers : List TimerEntry
  activeCalls : List (String × CallData)
  deriving DecidableEq, Repr

/-- The in-memory part of the `disconnect` handler: presence removal, typing
cleanup, call cleanup, returning the new state and the call events emitted. -/
def disconnectHandler (st : RelayState) (userId : String) :
    RelayState × List CallEvent :=
  let online := deleteOnline st.onlineUsers userId
  let typing := disconnectTypingCleanup st.typingUsers userId
  let r := disconnectCallCleanup online st.activeCalls userId
  (⟨online, typing, r.1⟩, r.2)

end Relay

namespace Models

/-! ## `Message.addReaction` (src/models/Message.js)

```js
messageSchema.methods.addReaction = async function(userId, emoji) {
  this.reactions = this.reactions.filter(r => r.user.toString() !== userId.toString());
  this.reactions.push({ user: userId, emoji });
  return this.save();
};
```
-/

/-- One element of a message's `reactions` array (the `reactedAt` timestamp is
irrelevant to the properties proved here and omitted). -/
structure Reaction where
  user : String
  emoji : String
  deriving DecidableEq, Repr

/-- Method `Message.addReaction(userId, emoji)` acting on the `reactions` array:
filter out every reaction by `userId`, then push the new one. -/
def addReaction (reactions : List Reaction) (userId emoji : String) :
    List Reaction :=
  (reactions.filter (fun r => r.user ≠ userId)) ++ [⟨userId, emoji⟩]

/-- The reactions recorded for a given user on a message. -/
def reactionsBy (reactions : List Reaction) (userId : String) : List Reaction :=
  reactions.filter (fun r => r.user = userId)

/-- A sequence of `message-reaction` events by one user on one message: each
event's emoji is applied in turn via `addReaction`. -/
def applyReactions (reactions : List Reaction) (userId : String)
    (emojis : List String) : List Reaction :=
  emojis.foldl (fun rs e => addReaction rs userId e) reactions

/-! ## The durable call record `VideoCall` (src/models/VideoCall.js)

`status` is one of `['initiated', 'ringing', 'active', 'ended', 'rejected',
'missed', 'declined', 'busy', 'failed']`.  Timestamps are `Nat` milliseconds;
`duration` is stored in seconds (`Math.floor((endedAt - answeredAt) / 1000)`).
A method that `throw`s is modelled as `Except.error` with the thrown message;
`this.save()` is the returned `Except.ok` document. -/

inductive CallStatus
  | initiated | ringing | active | ended | rejected | missed | declined | busy | failed
  deriving DecidableEq, Repr

/-- The `VideoCall` document fields touched by `answer`/`end`/`reject`/
`markAsMissed`. -/
structure VideoCallDoc where
  status : CallStatus
  answeredAt : Option Nat
  endedAt : Option Nat
  duration : Nat
  endReason : Option String
  deriving DecidableEq, Repr

/-- Method `videoCallSchema.methods.answer`:

```js
if (!['ringing', 'initiated'].includes(this.status)) {
  throw new Error('Call cannot be answered in current state');
}
this.status = 'active';
this.answeredAt = new Date();
return this.save();
```
-/
def VideoCallDoc.answer (c : VideoCallDoc) (now : Nat) :
    Except String VideoCallDoc :=
  if c.status = CallStatus.ringing ∨ c.status = CallStatus.initiated then
    Except.ok { c with status := CallStatus.active, answeredAt := some now }
  else Except.error "Call cannot be answered in current state"

/-- Method `videoCallSchema.methods.end` (the method named `end` in the source;
`end` is a reserved word in Lean):

```js
if (this.status === 'ended') throw new Error('Call has already ended');
this.status = 'ended';
this.endedAt = new Date();
this.endReason = reason;
if (this.answeredAt) {
  this.duration = Math.floor((this.endedAt - this.answeredAt) / 1000);
}
return this.save();
```
-/
def VideoCallDoc.endCall (c : VideoCallDoc) (now : Nat) (reason : String) :
    Except String VideoCallDoc :=
  if c.status = CallStatus.ended then Except.error "Call has already ended"
  else
    let c := { c with status := CallStatus.ended, endedAt := some now,
                      endReason := some reason }
    match c.answeredAt with
    | some a => Except.ok { c with duration := (now - a) / 1000 }
    | none => Except.ok c

/-- Method `videoCallSchema.methods.reject`:

```js
if (this.status === 'ended') throw new Error('Call has already ended');
this.status = 'rejected';
this.endedAt = new Date();
this.endReason = reason;
return this.save();
```
-/
def VideoCallDoc.reject (c : VideoCallDoc) (now : Nat) (reason : String) :
    Except String VideoCallDoc :=
  if c.status = CallStatus.ended then Except.error "Call has already ended"
  else Except.ok { c with status := CallStatus.rejected, endedAt := some now,
                          endReason := some reason }

/-- Method `videoCallSchema.methods.markAsMissed`:

```js
this.status = 'missed';
this.endedAt = new Date();
this.endReason = 'timeout';
return this.save();
```

The method performs no check of the current `status`. -/
def VideoCallDoc.markAsMissed (c : VideoCallDoc) (now : Nat) :
    Except String VideoCallDoc :=
  Except.ok { c with status := CallStatus.missed, endedAt := some now,
                     endReason := some "timeout" }

end Models

/-! # Theorems -/

/-! ## C1 — `join-conversation` and the participant check -/

/-- C1 is refuted: identity `u2` is not a participant of conversation `c9`
(whose participant list is `["u1"]`), yet the `join-conversation` handler adds
its connection to the room `conversation:c9` — the handler performs no
authorization check against the Durable Store. -/
theorem joinConversation_nonparticipant_added :
    "u2" ∉ (Relay.ConversationDoc.mk ["u1"]).participants ∧
    "conversation:c9" ∈ Relay.joinConversation [] "c9" := by
  constructor
  · decide
  · simp [Relay.joinConversation]

/-- C1 (amended): the `join-conversation` handler adds the connection to the
conversation room unconditionally — it never consults the Durable Store and
performs no participant check, exactly as stream rooms are joined. -/
theorem joinConversation_unconditional (socketRooms : List String)
    (conversationId : String) :
    ("conversation:" ++ conversationId) ∈
        Relay.joinConversation socketRooms conversationId ∧
    ∀ streamId, ("stream:" ++ streamId) ∈ Relay.joinStream socketRooms streamId := by
  refine ⟨?_, fun streamId => ?_⟩
  · simp [Relay.joinConversation]
  · simp [Relay.joinStream]

/-! ## C2 — typing debounce -/

/-- C2 is refuted on its last conjunct: firing the typing timer for the key
`c1:u1` removes the registry entry but broadcasts nothing — the `setTimeout`
callback is `() => typingUsers.delete(key)`, so no `typing-stop` event is
emitted when the debounce expires. -/
theorem typingTimerFire_no_stop_broadcast :
    Relay.typingTimerFire [⟨Relay.typingKey "c1" "u1", true⟩]
        (Relay.typingKey "c1" "u1") = ([], []) := by
  decide

/-- C2 (amended): a `typing-start` while a timer exists for the key is a
complete no-op (registry unchanged, nothing broadcast); a `typing-start` with
no existing timer arms a timer for the key and broadcasts `typing-start` to
the conversation room excluding the sender; the debounce interval is 3000 ms;
and when the timer fires it removes its own entry (and only entries for that
key) but broadcasts nothing. -/
theorem typing_debounce_behavior (reg : List Relay.TimerEntry)
    (c u n : String) :
    ((∃ e ∈ reg, e.key = Relay.typingKey c u) →
        Relay.typingStartHandler reg c u n = (reg, [])) ∧
    ((∀ e ∈ reg, e.key ≠ Relay.typingKey c u) →
        Relay.typingStartHandler reg c u n =
          (⟨Relay.typingKey c u, true⟩ :: reg,
           [Relay.TypingEvent.start ("conversation:" ++ c) u n])) ∧
    Relay.typingDebounceMs = 3000 ∧
    (Relay.typingTimerFire reg (Relay.typingKey c u)).2 = [] ∧
    (∀ e ∈ (Relay.typingTimerFire reg (Relay.typingKey c u)).1,
        e.key ≠ Relay.typingKey c u) ∧
    (∀ e ∈ (Relay.typingTimerFire reg (Relay.typingKey c u)).1, e ∈ reg) := by
  refine ⟨fun h => ?_, fun h => ?_, rfl, rfl, fun e he => ?_, fun e he => ?_⟩
  · obtain ⟨e, he, hk⟩ := h
    have : reg.any (fun e => e.key = Relay.typingKey c u) = true :=
      List.any_eq_true.mpr ⟨e, he, by simp [hk]⟩
    simp [Relay.typingStartHandler, this]
  · have : reg.any (fun e => e.key = Relay.typingKey c u) = false := by
      rw [List.any_eq_false]
      intro e he
      simp [h e he]
    simp [Relay.typingStartHandler, this]
  · have := List.of_mem_filter he
    simpa using this
  · exact List.mem_of_mem_filter he

/-- Witness for the amended C2: with a live timer for `c1:u1`, `typing-start`
changes nothing and emits nothing; with no timer, it arms one and broadcasts
`typing-start` to `conversation:c1`. -/
theorem typing_debounce_behavior_witness :
    Relay.typingStartHandler [⟨"c1:u1", true⟩] "c1" "u1" "alice" =
        ([⟨"c1:u1", true⟩], []) ∧
    Relay.typingStartHandler [] "c1" "u1" "alice" =
        ([⟨"c1:u1", true⟩],
         [Relay.TypingEvent.start "conversation:c1" "u1" "alice"]) := by
  constructor
  · exact (typing_debounce_behavior [⟨"c1:u1", true⟩] "c1" "u1" "alice").1
      ⟨⟨"c1:u1", true⟩, by decide⟩
  · exact (typing_debounce_behavior [] "c1" "u1" "alice").2.1
      (by intro e he; cases he)

/-! ## C3 — disconnect does not remove typing entries -/

/-- C3 fails on the code: user `u1` disconnects while the Typing Timer
Registry holds the entry `c1:u1`.  The disconnect handler cancels the timer
(`live` becomes `false`) but the entry is NOT removed: in
`k.endsWith(...) && clearTimeout(t) && typingUsers.delete(k)` the call
`clearTimeout(t)` returns `undefined`, which is falsy, so
`typingUsers.delete(k)` is never evaluated and the registry still holds an
entry keyed by `c1:u1` after the handler completes. -/
theorem disconnect_leaves_typing_entry :
    Relay.disconnectHandler ⟨[("u1", "s1")], [⟨"c1:u1", true⟩], []⟩ "u1" =
      (⟨[], [⟨"c1:u1", false⟩], []⟩, []) := by
  decide

/-! ## C4 — persistence strictly before broadcast; failure surfaces to sender only -/

/-- C4: in every execution of the `send-message` handler — over every
conversation lookup outcome (resolution or rejection), presence registry, and
outcome of the fallible durable operations — (a) whenever a `new-message`
broadcast occurs, the very first effect of the handler is the successful
durable persistence of the message (so the durable write strictly precedes
any broadcast), and (b) if persisting the message fails, the handler's entire
effect is exactly one `message-error` event on the sending socket: no
broadcast to any room and no notification. -/
theorem sendMessage_persist_before_broadcast (conv : Option Relay.ConversationDoc)
    (online : List (String × String)) (userId conversationId : String)
    (content : Option String) (findOk createOk populateOk saveOk : Bool) :
    (∀ room,
        Relay.SMEvent.newMessage room ∈
          Relay.sendMessageHandler conv online userId conversationId content
            findOk createOk populateOk saveOk →
        (Relay.sendMessageHandler conv online userId conversationId content
            findOk createOk populateOk saveOk).take 1 =
          [Relay.SMEvent.persistMessage conversationId userId content]) ∧
    (∀ c, conv = some c → userId ∈ c.participants → createOk = false →
        Relay.sendMessageHandler conv online userId conversationId content
            findOk createOk populateOk saveOk = [Relay.SMEvent.messageError]) := by
  constructor
  · intro room hmem
    cases findOk with
    | false => simp [Relay.sendMessageHandler] at hmem
    | true =>
      cases conv with
      | none => simp [Relay.sendMessageHandler] at hmem
      | some c =>
        by_cases hp : userId ∈ c.participants
        · cases createOk with
          | false => simp [Relay.sendMessageHandler, hp] at hmem
          | true =>
            cases populateOk with
            | false => simp [Relay.sendMessageHandler, hp] at hmem
            | true =>
              cases saveOk with
              | false => simp [Relay.sendMessageHandler, hp] at hmem
              | true => simp [Relay.sendMessageHandler, hp]
        · simp [Relay.sendMessageHandler, hp] at hmem
  · rintro c rfl hp rfl
    cases findOk with
    | false => simp [Relay.sendMessageHandler]
    | true => simp [Relay.sendMessageHandler, hp]

/-- Witness for C4: with participants `u1, u2`, sender `u1` online and `u2`
offline, a fully successful run broadcasts only after the persist effect (the
first effect of the trace is the durable write), and a run whose
`Message.create` rejects produces exactly `[message-error]`. -/
theorem sendMessage_persist_before_broadcast_witness :
    (Relay.sendMessageHandler (some ⟨["u1", "u2"]⟩) [("u1", "s1")] "u1" "c1"
        (some "hi") true true true true).take 1 =
      [Relay.SMEvent.persistMessage "c1" "u1" (some "hi")] ∧
    Relay.sendMessageHandler (some ⟨["u1", "u2"]⟩) [("u1", "s1")] "u1" "c1"
        (some "hi") true false true true = [Relay.SMEvent.messageError] := by
  constructor
  · exact (sendMessage_persist_before_broadcast (some ⟨["u1", "u2"]⟩)
      [("u1", "s1")] "u1" "c1" (some "hi") true true true true).1
      "conversation:c1" (by decide)
  · exact (sendMessage_persist_before_broadcast (some ⟨["u1", "u2"]⟩)
      [("u1", "s1")] "u1" "c1" (some "hi") true false true true).2
      ⟨["u1", "u2"]⟩ rfl (by decide) rfl

/-! ## C5 — non-participant send-message and the lookup-failure path -/

/-- C5 is refuted on the lookup-rejection path: `u2` is not a participant of
the conversation (participants `["u1"]`), yet when the awaited
`Conversation.findById` rejects — before the participant guard is ever
reached — the shared `catch` emits a `message-error` event to the sending
connection, so a non-participant's `send-message` is not always free of error
events. -/
theorem sendMessage_nonparticipant_error_on_lookup_failure :
    "u2" ∉ (Relay.ConversationDoc.mk ["u1"]).participants ∧
    Relay.sendMessageHandler (some ⟨["u1"]⟩) [("u1", "s1")] "u2" "c1"
      (some "hi") false true true true = [Relay.SMEvent.messageError] := by
  constructor
  · decide
  · rfl

/-- C5 (amended): when the awaited `Conversation.findById` resolves (whether
to the conversation document or to nothing), a `send-message` whose sender is
not a participant of the target conversation produces no effect whatsoever —
no persisted message, no broadcast, no notification, and no error event —
regardless of the outcomes of the later durable operations; when the lookup
itself rejects, the shared `catch` emits exactly one `message-error` to the
sending connection (and nothing else), regardless of participation. -/
theorem sendMessage_nonparticipant_silent (conv : Option Relay.ConversationDoc)
    (online : List (String × String)) (userId conversationId : String)
    (content : Option String) (findOk createOk populateOk saveOk : Bool)
    (h : ∀ c, conv = some c → userId ∉ c.participants) :
    (findOk = true →
        Relay.sendMessageHandler conv online userId conversationId content
          findOk createOk populateOk saveOk = []) ∧
    (findOk = false →
        Relay.sendMessageHandler conv online userId conversationId content
          findOk createOk populateOk saveOk = [Relay.SMEvent.messageError]) := by
  constructor
  · rintro rfl
    cases conv with
    | none => rfl
    | some c => simp [Relay.sendMessageHandler, h c rfl]
  · rintro rfl
    rfl

/-- Witness for the amended C5: `u2` is not a participant of the conversation
with participants `["u1"]`; when the lookup resolves its `send-message`
produces the empty effect list even though every durable operation would
succeed, and when the lookup rejects it produces exactly one `message-error`. -/
theorem sendMessage_nonparticipant_silent_witness :
    Relay.sendMessageHandler (some ⟨["u1"]⟩) [("u1", "s1")] "u2" "c1"
      (some "hi") true true true true = [] ∧
    Relay.sendMessageHandler (some ⟨["u1"]⟩) [("u1", "s1")] "u2" "c1"
      (some "hi") false true true true = [Relay.SMEvent.messageError] := by
  constructor
  · exact (sendMessage_nonparticipant_silent (some ⟨["u1"]⟩) [("u1", "s1")]
      "u2" "c1" (some "hi") true true true true
      (by rintro c hc; injection hc with hc; rw [← hc]; decide)).1 rfl
  · exact (sendMessage_nonparticipant_silent (some ⟨["u1"]⟩) [("u1", "s1")]
      "u2" "c1" (some "hi") false true true true
      (by rintro c hc; injection hc with hc; rw [← hc]; decide)).2 rfl

/-! ## C6 — initiate-call to an absent target -/

/-- C6: if the target identity has no Presence Registry entry, `initiate-call`
leaves the Call Session Table unchanged and the initiator's socket receives
exactly one `call-rejected` event with reason `User offline`; if the target is
present, a session `{caller, recipient, callType}` keyed by the generated call
id `<caller>-<target>-<Date.now()>` is added and the target's socket receives
exactly one `incoming-call` carrying the call id, the caller identity, the
offer, and the call type. -/
theorem initiateCall_offline_rejected (online : List (String × String))
    (calls : List (String × Relay.CallData))
    (userId socketId toId offer callType : String) (now : Nat) :
    (Relay.lookupSocket online toId = none →
        Relay.initiateCall online calls userId socketId toId offer callType now =
          (calls, [Relay.CallEvent.rejectedOffline socketId "User offline"])) ∧
    (∀ s, Relay.lookupSocket online toId = some s →
        Relay.initiateCall online calls userId socketId toId offer callType now =
          ((userId ++ "-" ++ toId ++ "-" ++ toString now,
              ⟨userId, toId, callType⟩) :: calls,
           [Relay.CallEvent.incomingCall s
              (userId ++ "-" ++ toId ++ "-" ++ toString now) userId offer callType])) := by
  constructor
  · intro h
    simp [Relay.initiateCall, h]
  · intro s h
    simp [Relay.initiateCall, h]

/-- Witness for C6: calling offline `u3` rejects with `User offline` and
leaves the table empty; calling online `u2` creates the session and delivers
`incoming-call` to socket `s2`. -/
theorem initiateCall_offline_rejected_witness :
    Relay.initiateCall [("u2", "s2")] [] "u1" "s1" "u3" "sdp" "video" 7 =
      ([], [Relay.CallEvent.rejectedOffline "s1" "User offline"]) ∧
    Relay.initiateCall [("u2", "s2")] [] "u1" "s1" "u2" "sdp" "video" 7 =
      ([("u1-u2-7", ⟨"u1", "u2", "video"⟩)],
       [Relay.CallEvent.incomingCall "s2" "u1-u2-7" "u1" "sdp" "video"]) := by
  constructor
  · exact (initiateCall_offline_rejected [("u2", "s2")] [] "u1" "s1" "u3" "sdp"
      "video" 7).1 rfl
  · have h := (initiateCall_offline_rejected [("u2", "s2")] [] "u1" "s1" "u2"
      "sdp" "video" 7).2 "s2" rfl
    simpa using h

/-! ## C8 — reactions: replacement and at-most-one per user -/

/-- Key replacement lemma: after `addReaction`, the reactions recorded for
that user are exactly the single new one. -/
theorem reactionsBy_addReaction (rs : List Models.Reaction) (uid e : String) :
    Models.reactionsBy (Models.addReaction rs uid e) uid = [⟨uid, e⟩] := by
  induction rs with
  | nil => simp [Models.addReaction, Models.reactionsBy]
  | cons r rest ih =>
    by_cases h : r.user = uid
    · simp [Models.addReaction, Models.reactionsBy, h]
    · simp [Models.addReaction, Models.reactionsBy, h]

/-- Any nonempty sequence of reaction events by one user leaves exactly one
reaction by that user. -/
theorem reactionsBy_applyReactions (uid : String) :
    ∀ (emojis : List String) (rs : List Models.Reaction), emojis ≠ [] →
      (Models.reactionsBy (Models.applyReactions rs uid emojis) uid).length = 1 := by
  intro emojis
  induction emojis with
  | nil => intro rs h; cases h rfl
  | cons e es ih =>
    intro rs _
    cases es with
    | nil => simp [Models.applyReactions, reactionsBy_addReaction]
    | cons e2 es2 =>
      have hstep : Models.applyReactions rs uid (e :: e2 :: es2) =
          Models.applyReactions (Models.addReaction rs uid e) uid (e2 :: es2) := rfl
      rw [hstep]
      exact ih (Models.addReaction rs uid e) (by simp)

/-- C8: `addReaction` replaces any existing reaction by the user (afterwards
the reactions recorded for that user are exactly the one new reaction);
consequently after any nonempty sequence of `message-reaction` events by one
user on one message exactly one reaction by that user is recorded; and
applying the same `(user, emoji)` reaction twice produces the same reaction
array as applying it once. -/
theorem addReaction_at_most_one (rs : List Models.Reaction) (uid : String)
    (emojis : List String) (e : String) :
    (emojis ≠ [] →
        (Models.reactionsBy (Models.applyReactions rs uid emojis) uid).length = 1) ∧
    Models.reactionsBy (Models.addReaction rs uid e) uid = [⟨uid, e⟩] ∧
    Models.addReaction (Models.addReaction rs uid e) uid e =
      Models.addReaction rs uid e := by
  refine ⟨fun h => reactionsBy_applyReactions uid emojis rs h,
          reactionsBy_addReaction rs uid e, ?_⟩
  induction rs with
  | nil => simp [Models.addReaction]
  | cons r rest ih =>
    by_cases h : r.user = uid
    · simp [Models.addReaction, h]
    · simp [Models.addReaction, h]

/-- Witness for C8: user `u1` reacting `like` twice on a message that already
carries a reaction by `u2` leaves exactly one reaction by `u1`. -/
theorem addReaction_at_most_one_witness :
    (Models.reactionsBy
        (Models.applyReactions [⟨"u2", "wow"⟩] "u1" ["like", "like"]) "u1").length = 1 :=
  (addReaction_at_most_one [⟨"u2", "wow"⟩] "u1" ["like", "like"] "like").1
    (by simp)

/-! ## C9 — durable call record transitions -/

/-- C9 is refuted on `markAsMissed`: the call record below has already ended
(`status = ended`, `endedAt` stamped), yet `markAsMissed` silently succeeds —
it performs no state check at all and overwrites the terminal state with
`missed`/`timeout` instead of raising an invalid-state error. -/
theorem markAsMissed_no_state_check :
    (⟨Models.CallStatus.ended, none, some 5000, 0, some "caller-ended"⟩ :
        Models.VideoCallDoc).markAsMissed 6000 =
      Except.ok ⟨Models.CallStatus.missed, none, some 6000, 0, some "timeout"⟩ := by
  rfl

/-- C9 (amended): `answer`, `end`, and `reject` reject invalid state
transitions by raising an invalid-state error — `answer` unless the status is
`ringing` or `initiated`, `end` and `reject` when the call has already ended —
while `markAsMissed` performs no state check and succeeds in every state;
`end` stamps `endedAt` and `endReason` and, when the call was answered,
computes `duration` as `(endedAt − answeredAt)` in whole seconds. -/
theorem videoCall_transitions (c : Models.VideoCallDoc) (now : Nat)
    (reason : String) :
    (¬(c.status = Models.CallStatus.ringing ∨
        c.status = Models.CallStatus.initiated) →
      c.answer now = Except.error "Call cannot be answered in current state") ∧
    (c.status = Models.CallStatus.ended →
      c.endCall now reason = Except.error "Call has already ended" ∧
      c.reject now reason = Except.error "Call has already ended") ∧
    (c.status ≠ Models.CallStatus.ended →
      ∃ c', c.endCall now reason = Except.ok c' ∧
        c'.status = Models.CallStatus.ended ∧ c'.endedAt = some now ∧
        c'.endReason = some reason ∧
        (∀ a, c.answeredAt = some a → c'.duration = (now - a) / 1000) ∧
        (c.answeredAt = none → c'.duration = c.duration)) ∧
    (∃ c', c.markAsMissed now = Except.ok c' ∧
        c'.status = Models.CallStatus.missed ∧ c'.endedAt = some now ∧
        c'.endReason = some "timeout") := by
  refine ⟨fun h => ?_, fun h => ?_, fun h => ?_, ?_⟩
  · simp [Models.VideoCallDoc.answer, h]
  · constructor
    · simp [Models.VideoCallDoc.endCall, h]
    · simp [Models.VideoCallDoc.reject, h]
  · cases ha : c.answeredAt with
    | none =>
      refine ⟨{ c with status := Models.CallStatus.ended, endedAt := some now,
                       endReason := some reason }, ?_, rfl, rfl, rfl, ?_, ?_⟩
      · simp [Models.VideoCallDoc.endCall, h, ha]
      · intro a hc; simp at hc
      · intro _; rfl
    | some a =>
      refine ⟨{ c with status := Models.CallStatus.ended, endedAt := some now,
                       endReason := some reason, duration := (now - a) / 1000 },
              ?_, rfl, rfl, rfl, ?_, ?_⟩
      · simp [Models.VideoCallDoc.endCall, h, ha]
      · intro a' hc
        injection hc with hc
        rw [hc]
      · intro hc; simp at hc
  · exact ⟨_, rfl, rfl, rfl, rfl⟩

/-- Witness for the amended C9: ending an already-ended record raises the
invalid-state error; ending an answered active record (answered at 1000 ms,
ended at 61000 ms) succeeds with `duration` 60 seconds. -/
theorem videoCall_transitions_witness :
    (⟨Models.CallStatus.ended, none, some 5, 0, none⟩ :
        Models.VideoCallDoc).endCall 9 "caller-ended" =
      Except.error "Call has already ended" ∧
    ∃ c', (⟨Models.CallStatus.active, some 1000, none, 0, none⟩ :
        Models.VideoCallDoc).endCall 61000 "caller-ended" = Except.ok c' ∧
      c'.duration = 60 := by
  constructor
  · exact ((videoCall_transitions
      ⟨Models.CallStatus.ended, none, some 5, 0, none⟩ 9 "caller-ended").2.1 rfl).1
  · obtain ⟨c', heq, _, _, _, hdur, _⟩ := (videoCall_transitions
      ⟨Models.CallStatus.active, some 1000, none, 0, none⟩ 61000
      "caller-ended").2.2.1 (by decide)
    exact ⟨c', heq, by rw [hdur 1000 rfl]⟩

/-! ## C10 — reject-call / end-call by an arbitrary emitter -/

/-- Deleting a call id removes it from the table: a subsequent lookup misses. -/
theorem lookupCall_deleteCall (calls : List (String × Relay.CallData))
    (callId : String) :
    Relay.lookupCall (Relay.deleteCall calls callId) callId = none := by
  induction calls with
  | nil => rfl
  | cons p rest ih =>
    by_cases h : p.1 = callId
    · simpa [Relay.deleteCall, h] using ih
    · simp [Relay.deleteCall, Relay.lookupCall, List.find?_cons, h]

/-- C10: for any authenticated emitter identity whatsoever — party to the call
or not — a `reject-call` (resp. `end-call`) carrying a call id present in the
Call Session Table removes that session and emits `call-rejected` (resp.
`call-ended`) to the party computed relative to the emitter (the session's
caller when the emitter is not the caller, otherwise the recipient), provided
that party is present; no check relates the emitter to the session. -/
theorem rejectEndCall_any_emitter (online : List (String × String))
    (calls : List (String × Relay.CallData)) (userId callId : String)
    (call : Relay.CallData)
    (h : Relay.lookupCall calls callId = some call) :
    Relay.rejectCallHandler online calls userId callId =
      (Relay.deleteCall calls callId,
       match Relay.lookupSocket online (Relay.otherParty call userId) with
       | some s => [Relay.CallEvent.callRejected s callId]
       | none => []) ∧
    Relay.endCallHandler online calls userId callId =
      (Relay.deleteCall calls callId,
       match Relay.lookupSocket online (Relay.otherParty call userId) with
       | some s => [Relay.CallEvent.callEnded s callId none]
       | none => []) ∧
    Relay.lookupCall (Relay.rejectCallHandler online calls userId callId).1
      callId = none := by
  refine ⟨?_, ?_, ?_⟩
  · simp only [Relay.rejectCallHandler, h, Relay.otherParty]
  · simp only [Relay.endCallHandler, h, Relay.otherParty]
  · simp only [Relay.rejectCallHandler, h]
    exact lookupCall_deleteCall calls callId

/-- Witness for C10: identity `mallory` is neither caller `u1` nor recipient
`u2` of session `call1`, yet its `reject-call`/`end-call` removes the session
and notifies the caller's socket `s1`. -/
theorem rejectEndCall_any_emitter_witness :
    Relay.rejectCallHandler [("u1", "s1"), ("u2", "s2")]
        [("call1", ⟨"u1", "u2", "video"⟩)] "mallory" "call1" =
      ([], [Relay.CallEvent.callRejected "s1" "call1"]) ∧
    Relay.endCallHandler [("u1", "s1"), ("u2", "s2")]
        [("call1", ⟨"u1", "u2", "video"⟩)] "mallory" "call1" =
      ([], [Relay.CallEvent.callEnded "s1" "call1" none]) := by
  have h := rejectEndCall_any_emitter [("u1", "s1"), ("u2", "s2")]
    [("call1", ⟨"u1", "u2", "video"⟩)] "mallory" "call1" ⟨"u1", "u2", "video"⟩ rfl
  exact ⟨by simpa using h.1, by simpa using h.2.1⟩

/-! ## C7 — disconnect resolves pending sessions with exactly one notice -/

/-- One step of the `activeCalls.forEach` cleanup loop. -/
theorem disconnectCallCleanup_cons (online : List (String × String))
    (p : String × Relay.CallData) (rest : List (String × Relay.CallData))
    (userId : String) :
    Relay.disconnectCallCleanup online (p :: rest) userId =
      if p.2.references userId then
        ((Relay.disconnectCallCleanup online rest userId).1,
         Relay.disconnectNotice online userId p.1 p.2 ++
           (Relay.disconnectCallCleanup online rest userId).2)
      else (p :: (Relay.disconnectCallCleanup online rest userId).1,
            (Relay.disconnectCallCleanup online rest userId).2) := rfl

/-- Step equation when the head session references the identity. -/
theorem disconnectCallCleanup_cons_ref (online : List (String × String))
    (p : String × Relay.CallData) (rest : List (String × Relay.CallData))
    (userId : String) (h : p.2.references userId = true) :
    Relay.disconnectCallCleanup online (p :: rest) userId =
      ((Relay.disconnectCallCleanup online rest userId).1,
       Relay.disconnectNotice online userId p.1 p.2 ++
         (Relay.disconnectCallCleanup online rest userId).2) := by
  rw [disconnectCallCleanup_cons, if_pos h]

/-- Step equation when the head session does not reference the identity. -/
theorem disconnectCallCleanup_cons_noref (online : List (String × String))
    (p : String × Relay.CallData) (rest : List (String × Relay.CallData))
    (userId : String) (h : p.2.references userId = false) :
    Relay.disconnectCallCleanup online (p :: rest) userId =
      (p :: (Relay.disconnectCallCleanup online rest userId).1,
       (Relay.disconnectCallCleanup online rest userId).2) := by
  rw [disconnectCallCleanup_cons, if_neg (by simp [h])]

/-- The sessions surviving the cleanup are exactly those that do not reference
the disconnected identity. -/
theorem disconnectCallCleanup_fst (online : List (String × String))
    (calls : List (String × Relay.CallData)) (userId : String) :
    (Relay.disconnectCallCleanup online calls userId).1 =
      calls.filter (fun p => !p.2.references userId) := by
  induction calls with
  | nil => rfl
  | cons p rest ih =>
    cases href : p.2.references userId with
    | false =>
      rw [disconnectCallCleanup_cons_noref online p rest userId href]
      simp [href, ih, List.filter_cons]
    | true =>
      rw [disconnectCallCleanup_cons_ref online p rest userId href]
      simp [href, ih, List.filter_cons]

/-- A cleanup over sessions none of which reference the identity emits no
event. -/
theorem disconnectCallCleanup_no_ref (online : List (String × String))
    (calls : List (String × Relay.CallData)) (userId : String)
    (h : ∀ p ∈ calls, p.2.references userId = false) :
    (Relay.disconnectCallCleanup online calls userId).2 = [] := by
  induction calls with
  | nil => rfl
  | cons p rest ih =>
    rw [disconnectCallCleanup_cons_noref online p rest userId (h p (by simp))]
    exact ih (fun q hq => h q (by simp [hq]))

/-- Every event in a session's disconnect notice carries that session's call
id, so a notice for a different id contributes nothing to the filter. -/
theorem disconnectNotice_filter_ne (online : List (String × String))
    (userId callId cid : String) (call : Relay.CallData) (h : callId ≠ cid) :
    (Relay.disconnectNotice online userId callId call).filter
        (fun e => e.isDisconnectEndedFor cid) = [] := by
  cases hls : Relay.lookupSocket online (Relay.otherParty call userId) with
  | none => simp [Relay.disconnectNotice, hls]
  | some s =>
    simp [Relay.disconnectNotice, hls, Relay.CallEvent.isDisconnectEndedFor, h]

/-- A session's disconnect notice survives the filter for its own call id
unchanged. -/
theorem disconnectNotice_filter_self (online : List (String × String))
    (userId callId : String) (call : Relay.CallData) :
    (Relay.disconnectNotice online userId callId call).filter
        (fun e => e.isDisconnectEndedFor callId) =
      Relay.disconnectNotice online userId callId call := by
  cases hls : Relay.lookupSocket online (Relay.otherParty call userId) with
  | none => simp [Relay.disconnectNotice, hls]
  | some s =>
    simp [Relay.disconnectNotice, hls, Relay.CallEvent.isDisconnectEndedFor]

/-- Events for a call id that is not a key of the table do not occur. -/
theorem disconnectCallCleanup_absent (online : List (String × String))
    (calls : List (String × Relay.CallData)) (userId callId : String)
    (h : callId ∉ calls.map Prod.fst) :
    (Relay.disconnectCallCleanup online calls userId).2.filter
        (fun e => e.isDisconnectEndedFor callId) = [] := by
  induction calls with
  | nil => rfl
  | cons p rest ih =>
    have hne : p.1 ≠ callId := by
      intro hc; exact h (by simp [hc])
    have hrest : callId ∉ rest.map Prod.fst := fun hc => h (by simp [hc])
    cases href : p.2.references userId with
    | false =>
      rw [disconnectCallCleanup_cons_noref online p rest userId href]
      exact ih hrest
    | true =>
      rw [disconnectCallCleanup_cons_ref online p rest userId href,
        List.filter_append, ih hrest,
        disconnectNotice_filter_ne online userId p.1 callId p.2 hne,
        List.append_nil]

/-- With distinct call ids, the events carrying a given pending session's call
id are exactly that session's disconnect notice. -/
theorem disconnectCallCleanup_filter_eq (online : List (String × String))
    (calls : List (String × Relay.CallData)) (userId callId : String)
    (call : Relay.CallData) (hnd : (calls.map Prod.fst).Nodup)
    (hmem : (callId, call) ∈ calls) (href : call.references userId = true) :
    (Relay.disconnectCallCleanup online calls userId).2.filter
        (fun e => e.isDisconnectEndedFor callId) =
      Relay.disconnectNotice online userId callId call := by
  induction calls with
  | nil => cases hmem
  | cons p rest ih =>
    rw [List.map_cons, List.nodup_cons] at hnd
    obtain ⟨hp1, hnd'⟩ := hnd
    rcases List.mem_cons.mp hmem with heq | hmemr
    · rw [← heq] at hp1 ⊢
      rw [disconnectCallCleanup_cons_ref online (callId, call) rest userId href,
        List.filter_append,
        disconnectCallCleanup_absent online rest userId callId hp1,
        disconnectNotice_filter_self online userId callId call,
        List.append_nil]
    · have hcid : callId ∈ rest.map Prod.fst :=
        List.mem_map.mpr ⟨(callId, call), hmemr, rfl⟩
      have hne : p.1 ≠ callId := fun hc => hp1 (hc ▸ hcid)
      cases hrefp : p.2.references userId with
      | false =>
        rw [disconnectCallCleanup_cons_noref online p rest userId hrefp]
        exact ih hnd' hmemr
      | true =>
        rw [disconnectCallCleanup_cons_ref online p rest userId hrefp,
          List.filter_append, ih hnd' hmemr,
          disconnectNotice_filter_ne online userId p.1 callId p.2 hne,
          List.nil_append]

/-- Unfolding equation for the in-memory disconnect handler. -/
theorem disconnectHandler_eq (st : Relay.RelayState) (userId : String) :
    Relay.disconnectHandler st userId =
      (⟨Relay.deleteOnline st.onlineUsers userId,
        Relay.disconnectTypingCleanup st.typingUsers userId,
        (Relay.disconnectCallCleanup (Relay.deleteOnline st.onlineUsers userId)
            st.activeCalls userId).1⟩,
       (Relay.disconnectCallCleanup (Relay.deleteOnline st.onlineUsers userId)
          st.activeCalls userId).2) := rfl

/-- C7: after the disconnect handler for an identity, (1) no Call Session
referencing that identity as caller or recipient remains in the Call Session
Table; (2) assuming the table's call ids are distinct (a `Map` invariant), for
every pending session that did reference the identity the emitted
`call-ended(reason: 'disconnect')` events carrying that session's call id are
exactly its disconnect notice — one event to the other party's socket when
that party is present, none when it is absent; and (3) a disconnect while no
pending session references the identity emits no call event at all. -/
theorem disconnect_call_cleanup_spec (st : Relay.RelayState) (userId : String) :
    (∀ p ∈ (Relay.disconnectHandler st userId).1.activeCalls,
        p.2.references userId = false) ∧
    ((st.activeCalls.map Prod.fst).Nodup →
      ∀ callId call, (callId, call) ∈ st.activeCalls →
        call.references userId = true →
        (Relay.disconnectHandler st userId).2.filter
            (fun e => e.isDisconnectEndedFor callId) =
          Relay.disconnectNotice (Relay.deleteOnline st.onlineUsers userId)
            userId callId call) ∧
    ((∀ p ∈ st.activeCalls, p.2.references userId = false) →
      (Relay.disconnectHandler st userId).2 = []) := by
  refine ⟨?_, ?_, ?_⟩
  · intro p hp
    have hp' : p ∈ (Relay.disconnectCallCleanup
        (Relay.deleteOnline st.onlineUsers userId) st.activeCalls userId).1 := hp
    rw [disconnectCallCleanup_fst] at hp'
    have := List.of_mem_filter hp'
    simpa using this
  · intro hnd callId call hmem href
    show (Relay.disconnectCallCleanup (Relay.deleteOnline st.onlineUsers userId)
        st.activeCalls userId).2.filter (fun e => e.isDisconnectEndedFor callId) =
      Relay.disconnectNotice (Relay.deleteOnline st.onlineUsers userId)
        userId callId call
    exact disconnectCallCleanup_filter_eq _ _ _ _ _ hnd hmem href
  · intro h
    show (Relay.disconnectCallCleanup (Relay.deleteOnline st.onlineUsers userId)
        st.activeCalls userId).2 = []
    exact disconnectCallCleanup_no_ref _ _ _ h

/-- Witness for C7: `u1` (caller of pending session `call1` with online
recipient `u2`) disconnects — the events for `call1` are exactly one
`call-ended(reason: 'disconnect')` to `u2`'s socket `s2`; and a disconnect of
`z`, referenced by no session, emits nothing. -/
theorem disconnect_call_cleanup_spec_witness :
    (Relay.disconnectHandler
        ⟨[("u1", "s1"), ("u2", "s2")], [], [("call1", ⟨"u1", "u2", "video"⟩)]⟩
        "u1").2.filter (fun e => e.isDisconnectEndedFor "call1") =
      [Relay.CallEvent.callEnded "s2" "call1" (some "disconnect")] ∧
    (Relay.disconnectHandler ⟨[], [], [("c2", ⟨"a", "b", "v"⟩)]⟩ "z").2 = [] := by
  constructor
  · have h := (disconnect_call_cleanup_spec
      ⟨[("u1", "s1"), ("u2", "s2")], [], [("call1", ⟨"u1", "u2", "video"⟩)]⟩
      "u1").2.1 (by decide) "call1" ⟨"u1", "u2", "video"⟩ (by decide) (by decide)
    rw [h]
    rfl
  · exact (disconnect_call_cleanup_spec
      ⟨[], [], [("c2", ⟨"a", "b", "v"⟩)]⟩ "z").2.2 (by decide)
